import Mathlib

/-!
Shallow embedding of `src/main.go` (a gin HTTP service instrumented with the
New Relic Go agent).  Handlers are pure state transformers over `HState`;
wall-clock time is an explicit `Nat` clock advanced by the `time.Sleep`
calls in the source.  The vendor SDK (`newrelic`, `nrgin`) is not part of
the repository source, so its carrier operations are modelled from the
spec's carrier contract (section 4.1/4.2): a transaction handle is
`Option Ctx`, and every operation on an absent handle is a no-op.
-/

/-- Attribute / event payload values appearing in `main.go`.  The one float
literal (`0.603`) is kept as an uninterpreted numeric literal: no claim
inspects its value. -/
inductive AttrVal where
  | s (v : String)
  | i (v : Int)
  | b (v : Bool)
  | numLit (v : String)
deriving Repr, DecidableEq

/-- An error noticed on a transaction (`newrelic.Error`): message, class and
attributes.  A plain `errors.New` error carries empty class and attributes. -/
structure NoticedErr where
  message : String
  cls : String
  attrs : List (String × AttrVal)
deriving Repr, DecidableEq

/-- A finished (closed) segment: name, start and stop timestamps, and the
name of the innermost segment that was open when it started (its parent in
the call-order nesting, `none` at top level). -/
structure Segment where
  name : String
  start : Nat
  stop : Nat
  parent : Option String
deriving Repr, DecidableEq

/-- A segment that has been started but not yet ended. -/
structure OpenSeg where
  name : String
  start : Nat
  parent : Option String
deriving Repr, DecidableEq

/-- A finished message-producer segment (`newrelic.MessageProducerSegment`). -/
structure MsgSegment where
  library : String
  destinationName : String
  start : Nat
  stop : Nat
deriving Repr, DecidableEq

/-- A finished external-call segment (`newrelic.StartExternalSegment`). -/
structure ExtSegment where
  url : String
  start : Nat
  stop : Nat
deriving Repr, DecidableEq

/-- Modelled from the spec: the per-request monitoring Context (a
`newrelic.Transaction` record).  It carries a mutable name, attributes,
noticed errors, a stack of open segments, the finished segments, the
ignore flag, and the browser-timing script the agent would hand out for
this transaction (`none` when browser monitoring yields nothing). -/
structure Ctx where
  id : Nat
  name : String
  attrs : List (String × AttrVal)
  errors : List NoticedErr
  openSegs : List OpenSeg
  segs : List Segment
  producerSegs : List MsgSegment
  extSegs : List ExtSegment
  ignored : Bool
  browserScript : Option String
deriving Repr, DecidableEq

/-- Application-level state (`newrelic.Application`): custom events and
custom metrics recorded through `txn.Application()`. -/
structure AppState where
  events : List (String × List (String × AttrVal))
  metrics : List (String × Nat)
deriving Repr, DecidableEq

/-- The state a handler runs in: the transaction retrieved from the request
scope (`none` when no Context was attached), the application state, the
accumulated response body, and the clock. -/
structure HState where
  txn : Option Ctx
  app : AppState
  body : String
  clock : Nat
deriving Repr, DecidableEq

/-- Modelled from the spec: `Transaction.SetName` — nil-safe, a no-op on an
absent Context. -/
def txnSetName (t : Option Ctx) (n : String) : Option Ctx :=
  t.map fun c => { c with name := n }

/-- Modelled from the spec: `Transaction.AddAttribute` — nil-safe append of
a key/value pair. -/
def txnAddAttribute (t : Option Ctx) (k : String) (v : AttrVal) : Option Ctx :=
  t.map fun c => { c with attrs := c.attrs ++ [(k, v)] }

/-- Modelled from the spec: `Transaction.NoticeError` — nil-safe append of
a noticed error. -/
def txnNoticeError (t : Option Ctx) (e : NoticedErr) : Option Ctx :=
  t.map fun c => { c with errors := c.errors ++ [e] }

/-- Modelled from the spec: `Transaction.Ignore` — nil-safe, marks the
Context as excluded from reporting. -/
def txnIgnore (t : Option Ctx) : Option Ctx :=
  t.map fun c => { c with ignored := true }

/-- Modelled from the spec: the reporting sink accepts a finalized Context
unless it was marked ignored. -/
def sinkAccepts (c : Ctx) : Bool :=
  !c.ignored

/-- Modelled from the spec: `Application.RecordCustomEvent`. -/
def appRecordCustomEvent (a : AppState) (ty : String)
    (payload : List (String × AttrVal)) : AppState :=
  { a with events := a.events ++ [(ty, payload)] }

/-- Modelled from the spec: `Application.RecordCustomMetric`. -/
def appRecordCustomMetric (a : AppState) (n : String) (v : Nat) : AppState :=
  { a with metrics := a.metrics ++ [(n, v)] }

/-- Modelled from the spec: `newrelic.StartSegment` / `Segment.Begin` —
records a start timestamp on the owning Context's open-segment stack; the
parent is the innermost segment open at start time; nil-safe. -/
def startSegment (t : Option Ctx) (n : String) (now : Nat) : Option Ctx :=
  t.map fun c =>
    { c with openSegs := ⟨n, now, c.openSegs.head?.map OpenSeg.name⟩ :: c.openSegs }

/-- Modelled from the spec: `Segment.End` — closes the innermost open
segment at the current timestamp and submits the interval to the Context;
nil-safe, and a no-op when nothing is open. -/
def endSegment (t : Option Ctx) (now : Nat) : Option Ctx :=
  t.map fun c =>
    match c.openSegs with
    | [] => c
    | s :: rest =>
        { c with openSegs := rest,
                 segs := c.segs ++ [⟨s.name, s.start, now, s.parent⟩] }

/-- Modelled from the spec: `newrelic.StartSegmentNow` — captures the start
timestamp for a datastore/message/external segment; absent Context gives
the zero value, on which `End` is a no-op. -/
def startSegmentNow (t : Option Ctx) (now : Nat) : Option Nat :=
  t.map fun _ => now

/-- Modelled from the spec: `MessageProducerSegment.End` — submits the
producer interval to the Context held in its start time; no-op when the
start time is the zero value. -/
def msgProducerEnd (t : Option Ctx) (st0 : Option Nat) (library dest : String)
    (now : Nat) : Option Ctx :=
  match st0 with
  | none => t
  | some s =>
      t.map fun c =>
        { c with producerSegs := c.producerSegs ++ [⟨library, dest, s, now⟩] }

/-- Modelled from the spec: `ExternalSegment.End` — submits the external
call interval to the Context; no-op on the zero value. -/
def extSegmentEnd (t : Option Ctx) (st0 : Option Nat) (url : String)
    (now : Nat) : Option Ctx :=
  match st0 with
  | none => t
  | some s =>
      t.map fun c => { c with extSegs := c.extSegs ++ [⟨url, s, now⟩] }

/-- Modelled from the spec: `BrowserTimingHeader` followed by `WithTags` —
always safe to call; yields the timing script bytes, or `nil` when none is
available (in particular on an absent Context). -/
def browserTimingHeaderWithTags (t : Option Ctx) : Option String :=
  t.bind fun c => c.browserScript

/-- The request scope the dispatcher middleware writes the Context into:
the gin context's key store (read by `nrgin.Transaction`) and the
`http.Request` context (read by `newrelic.FromContext`). -/
structure Scope where
  ginTxn : Option Ctx
  reqCtxTxn : Option Ctx
deriving Repr, DecidableEq

/-- Modelled from the spec: `Attach` — the `nrgin.Middleware` starts a
transaction for the inbound request and binds the same handle into both
lookup paths of the request scope. -/
def attach (c : Ctx) (_s : Scope) : Scope :=
  { ginTxn := some c, reqCtxTxn := some c }

/-- Modelled from the spec: `nrgin.Transaction` — `Retrieve` via the gin
context. -/
def nrginTransaction (s : Scope) : Option Ctx :=
  s.ginTxn

/-- Modelled from the spec: `newrelic.FromContext` — `Retrieve` via the
request's context; `nil` (absent) when nothing was attached. -/
def fromContext (s : Scope) : Option Ctx :=
  s.reqCtxTxn

/-- `EndpointAccessTransaction` (main.go:19): set the transaction name and
write the body. -/
def EndpointAccessTransaction (st : HState) : HState :=
  { st with txn := txnSetName st.txn "test-txn",
            body := st.body ++ "test Transaction" }

/-- `index` (main.go:25). -/
def index (st : HState) : HState :=
  { st with body := st.body ++ "hello world" }

/-- `versionHandler` (main.go:29): write the agent version banner.  The
value of `newrelic.Version` is a constant of the vendor SDK, outside this
repository's source, so it is taken as a parameter. -/
def versionHandler (version : String) (st : HState) : HState :=
  { st with body := st.body ++ ("New Relic Go Agent Version: " ++ version) }

/-- `setName` (main.go:70): write the body, then rename the transaction if
one was retrieved. -/
def setName (st : HState) : HState :=
  let st1 := { st with body := st.body ++ "changing the transaction's name" }
  if st1.txn.isSome then { st1 with txn := txnSetName st1.txn "other-name" }
  else st1

/-- `addAttribute` (main.go:78). -/
def addAttribute (st : HState) : HState :=
  let st1 := { st with body := st.body ++ "adding attributes" }
  if st1.txn.isSome then
    let t2 := txnAddAttribute st1.txn "myString" (.s "hello")
    { st1 with txn := txnAddAttribute t2 "myInt" (.i 123) }
  else st1

/-- `noticeError` (main.go:33). -/
def noticeError (st : HState) : HState :=
  let st1 := { st with body := st.body ++ "noticing an error" }
  if st1.txn.isSome then
    { st1 with txn := txnNoticeError st1.txn ⟨"my error message", "", []⟩ }
  else st1

/-- `noticeErrorWithAttributes` (main.go:42). -/
def noticeErrorWithAttributes (st : HState) : HState :=
  let st1 := { st with body := st.body ++ "noticing an error" }
  if st1.txn.isSome then
    let e : NoticedErr :=
      ⟨"something went very wrong", "errors are aggregated by class",
       [("error no.", .i 97232)]⟩
    { st1 with txn := txnNoticeError st1.txn e }
  else st1

/-- `customEvent` (main.go:55): body first, then record through
`txn.Application()` under the nil guard. -/
def customEvent (st : HState) : HState :=
  let st1 := { st with body := st.body ++ "recording a custom event" }
  if st1.txn.isSome then
    let payload : List (String × AttrVal) :=
      [("message", .s "hello world"), ("Float", .numLit "0.603"),
       ("Int", .i 123), ("Bool", .b true)]
    { st1 with app := appRecordCustomEvent st1.app "my_event_type" payload }
  else st1

/-- `ignore` (main.go:87): on heads (`0 == rand.Intn(2)`) ignore the
transaction (under the nil guard) and say so; on tails only say so. -/
def ignore (st : HState) (coinFlip : Bool) : HState :=
  if coinFlip then
    let st1 := if st.txn.isSome then { st with txn := txnIgnore st.txn } else st
    { st1 with body := st1.body ++ "ignoring the transaction" }
  else
    { st with body := st.body ++ "not ignoring the transaction" }

/-- `segments` (main.go:103): open "f1", inside it open "f2", write the
body, sleep 10ms, close "f2" (inner defer), sleep 15ms, close "f1" (outer
defer), sleep 20ms. -/
def segments (st : HState) : HState :=
  let t1 := startSegment st.txn "f1" st.clock
  let t2 := startSegment t1 "f2" st.clock
  let body1 := st.body ++ "segments!"
  let c1 := st.clock + 10
  let t3 := endSegment t2 c1
  let c2 := c1 + 15
  let t4 := endSegment t3 c2
  let c3 := c2 + 20
  { st with txn := t4, body := body1, clock := c3 }

/-- `message` (main.go:121): build a `MessageProducerSegment` starting now,
sleep 20ms, write the body, and end the segment on return (defer). -/
def message (st : HState) : HState :=
  let s0 := startSegmentNow st.txn st.clock
  let c1 := st.clock + 20
  let body1 := st.body ++ "producing a message queue message"
  let t1 := msgProducerEnd st.txn s0 "Library" "Destination name" c1
  { st with txn := t1, body := body1, clock := c1 }

/-- `external` (main.go:136): start an external segment, perform exactly
one outbound call (the head of the pending network outcomes), end the
segment; on error write the error text to the body and return, otherwise
copy the response body.  The returned list is what is left of the network
oracle: its length witnesses that no retry happened. -/
def external (st : HState) (net : List (Except String String)) :
    HState × List (Except String String) :=
  let s0 := startSegmentNow st.txn st.clock
  let outcome := net.headD (.error "connection failed")
  let t1 := extSegmentEnd st.txn s0 "https://api.github.com/users/defunkt" st.clock
  match outcome with
  | .error e => ({ st with txn := t1, body := st.body ++ e }, net.tail)
  | .ok rb => ({ st with txn := t1, body := st.body ++ rb }, net.tail)

/-- `async` (main.go:153): spawn a goroutine that opens segment "async"
and closes it after a 100ms sleep; meanwhile open "wg.Wait", join the
goroutine (`wg.Wait()`), close "wg.Wait", and write "done!".  Because the
handler joins before touching the response, the interleaving is
sequentialized here with the goroutine's start and end bracketed by the
handler's; the goroutine operates on the very same transaction value the
handler passed it. -/
def async (st : HState) : HState :=
  let t1 := startSegment st.txn "wg.Wait" st.clock
  let t2 := startSegment t1 "async" st.clock
  let c1 := st.clock + 100
  let t3 := endSegment t2 c1
  let t4 := endSegment t3 c1
  { st with txn := t4, body := st.body ++ "done!", clock := c1 }

/-- One iteration of the inner loop of `customMetric` (main.go:176-180):
record the header value's length as a custom metric, under the nil guard. -/
def recordHeaderVal (acc : HState) (v : String) : HState :=
  if acc.txn.isSome then
    { acc with app := appRecordCustomMetric acc.app "HeaderLength" v.length }
  else acc

/-- `customMetric` (main.go:173): for every header value record its length
as a custom metric (under the nil guard), then write the body. -/
def customMetric (st : HState) (headers : List (String × List String)) : HState :=
  let st1 := headers.foldl (fun acc p => p.2.foldl recordHeaderVal acc) st
  { st1 with body := st1.body ++ "custom metric recorded" }

/-- `browser` (main.go:189): take the browser timing header of the
retrieved transaction (no nil check), write the script when `WithTags`
yields one, and always write "browser header page". -/
def browser (st : HState) : HState :=
  let js := browserTimingHeaderWithTags st.txn
  let body1 := match js with
    | some s => st.body ++ s
    | none => st.body
  { st with body := body1 ++ "browser header page" }

/-- The routing table built in `main` (main.go:214-242): route path and
handler name, in registration order. -/
def mainRoutes : List (String × String) :=
  [("/txn", "EndpointAccessTransaction"),
   ("/test-connection", "index"),
   ("/version", "versionHandler"),
   ("/notice_error", "noticeError"),
   ("/notice_error_with_attributes", "noticeErrorWithAttributes"),
   ("/custom_event", "customEvent"),
   ("/set_name", "setName"),
   ("/add_attribute", "addAttribute"),
   ("/ignore", "ignore"),
   ("/segments", "segments"),
   ("/external", "external"),
   ("/custommetric", "customMetric"),
   ("/browser", "browser"),
   ("/async", "async"),
   ("/message", "message")]

/-- The middleware list installed on the router (main.go:211): only the
monitoring middleware. -/
def mainMiddleware : List String :=
  ["nrgin.Middleware"]

/-- Observable steps of dispatching one request. -/
inductive Event where
  | attachTxn
  | handlerRun (handlerName : String)
deriving Repr, DecidableEq

/-- Modelled from the spec: gin runs the middleware registered with
`router.Use` in order before the matched route handler; the monitoring
middleware performs the attach step. -/
def dispatch (middleware : List String) (handlerName : String) : List Event :=
  (middleware.map fun _ => Event.attachTxn) ++ [Event.handlerRun handlerName]

/-- Outcome of process startup. -/
inductive StartOutcome where
  | exited (printed : String) (code : Nat)
  | serving (port : String) (routes : List (String × String))
deriving Repr, DecidableEq

/-- `main` (main.go:197-244): if `newrelic.NewApplication` fails, print the
error and exit with status 1 before any router is built; otherwise install
the middleware, register the routes and serve on :8000. -/
def mainStartup (newAppResult : Except String Unit) : StartOutcome :=
  match newAppResult with
  | .error e => .exited e 1
  | .ok _ => .serving ":8000" mainRoutes

/-- The Context the monitoring middleware creates for a new request:
no attributes, no errors, no segments, not ignored. -/
def freshCtx (id : Nat) : Ctx :=
  ⟨id, "", [], [], [], [], [], [], false, none⟩

/-! ## Helper lemmas -/

theorem recordHeaderVal_noCtx (acc : HState) (h : acc.txn = none) (v : String) :
    recordHeaderVal acc v = acc := by
  simp [recordHeaderVal, h]

theorem foldl_recordHeaderVal_noCtx (l : List String) (acc : HState)
    (h : acc.txn = none) : l.foldl recordHeaderVal acc = acc := by
  induction l generalizing acc with
  | nil => rfl
  | cons v t ih =>
      rw [List.foldl_cons, recordHeaderVal_noCtx acc h v]
      exact ih acc h

theorem foldl_headers_noCtx (headers : List (String × List String)) (acc : HState)
    (h : acc.txn = none) :
    headers.foldl (fun acc p => p.2.foldl recordHeaderVal acc) acc = acc := by
  induction headers generalizing acc with
  | nil => rfl
  | cons p t ih =>
      rw [List.foldl_cons, foldl_recordHeaderVal_noCtx p.2 acc h]
      exact ih acc h

/-! ## Claim theorems -/

/-- C1: when no monitoring Context is attached to the request scope (the
transaction lookup yields `none`), every dependent instrumentation
operation in every handler is a no-op — the transaction stays absent and
the application state is untouched — and each handler still completes,
writing its normal response body. -/
theorem noCtx_silent_degradation (app : AppState) (body : String) (clock : Nat)
    (flip : Bool) (headers : List (String × List String)) (version e rb : String)
    (rest : List (Except String String)) :
    EndpointAccessTransaction ⟨none, app, body, clock⟩ =
      ⟨none, app, body ++ "test Transaction", clock⟩ ∧
    setName ⟨none, app, body, clock⟩ =
      ⟨none, app, body ++ "changing the transaction's name", clock⟩ ∧
    addAttribute ⟨none, app, body, clock⟩ =
      ⟨none, app, body ++ "adding attributes", clock⟩ ∧
    noticeError ⟨none, app, body, clock⟩ =
      ⟨none, app, body ++ "noticing an error", clock⟩ ∧
    noticeErrorWithAttributes ⟨none, app, body, clock⟩ =
      ⟨none, app, body ++ "noticing an error", clock⟩ ∧
    customEvent ⟨none, app, body, clock⟩ =
      ⟨none, app, body ++ "recording a custom event", clock⟩ ∧
    ignore ⟨none, app, body, clock⟩ flip =
      ⟨none, app,
       body ++ (if flip then "ignoring the transaction"
                else "not ignoring the transaction"), clock⟩ ∧
    segments ⟨none, app, body, clock⟩ =
      ⟨none, app, body ++ "segments!", clock + 10 + 15 + 20⟩ ∧
    message ⟨none, app, body, clock⟩ =
      ⟨none, app, body ++ "producing a message queue message", clock + 20⟩ ∧
    async ⟨none, app, body, clock⟩ =
      ⟨none, app, body ++ "done!", clock + 100⟩ ∧
    browser ⟨none, app, body, clock⟩ =
      ⟨none, app, body ++ "browser header page", clock⟩ ∧
    customMetric ⟨none, app, body, clock⟩ headers =
      ⟨none, app, body ++ "custom metric recorded", clock⟩ ∧
    index ⟨none, app, body, clock⟩ =
      ⟨none, app, body ++ "hello world", clock⟩ ∧
    versionHandler version ⟨none, app, body, clock⟩ =
      ⟨none, app, body ++ ("New Relic Go Agent Version: " ++ version), clock⟩ ∧
    external ⟨none, app, body, clock⟩ (.error e :: rest) =
      (⟨none, app, body ++ e, clock⟩, rest) ∧
    external ⟨none, app, body, clock⟩ (.ok rb :: rest) =
      (⟨none, app, body ++ rb, clock⟩, rest) ∧
    external ⟨none, app, body, clock⟩ [] =
      (⟨none, app, body ++ "connection failed", clock⟩, []) := by
  refine ⟨rfl, rfl, rfl, rfl, rfl, rfl, ?_, rfl, rfl, rfl, rfl, ?_, rfl, rfl,
    rfl, rfl, rfl⟩
  · cases flip <;> rfl
  · simp only [customMetric]
    rw [foldl_headers_noCtx headers ⟨none, app, body, clock⟩ rfl]

/-- C2: after the dispatcher middleware attaches a Context to the request
scope, both retrieval paths (`newrelic.FromContext` on the request context
and `nrgin.Transaction` on the gin context) return that very Context, so
two retrievals within one request never differ. -/
theorem retrieve_after_attach_same (c : Ctx) (s : Scope) :
    fromContext (attach c s) = some c ∧
    nrginTransaction (attach c s) = some c ∧
    fromContext (attach c s) = nrginTransaction (attach c s) :=
  ⟨rfl, rfl, rfl⟩

/-- C3: the segments handler closes both segments it opens ("f1" and
"f2") exactly once, restoring the open-segment stack, with "f2" recorded
as a child of "f1" per call order; on the fresh per-request Context the
final segment list is exactly those two segments, nested, with no segment
left open at finalization. -/
theorem segments_all_closed_nested (c : Ctx) (app : AppState) (body : String)
    (clock id : Nat) :
    segments ⟨some c, app, body, clock⟩ =
      ⟨some { c with
          segs := (c.segs ++ [⟨"f2", clock, clock + 10, some "f1"⟩]) ++
                  [⟨"f1", clock, clock + 10 + 15, c.openSegs.head?.map OpenSeg.name⟩] },
       app, body ++ "segments!", clock + 10 + 15 + 20⟩ ∧
    (segments ⟨some (freshCtx id), app, body, clock⟩).txn =
      some { freshCtx id with
               segs := [⟨"f2", clock, clock + 10, some "f1"⟩,
                        ⟨"f1", clock, clock + 10 + 15, none⟩] } ∧
    ((segments ⟨some (freshCtx id), app, body, clock⟩).txn.map
        (fun c2 => (c2.segs.countP (fun s => s.name == "f1"),
                    c2.segs.countP (fun s => s.name == "f2"),
                    c2.openSegs.length))) = some (1, 1, 0) ∧
    ((segments ⟨some (freshCtx id), app, body, clock⟩).txn.map
        (fun c2 => c2.segs.map Segment.parent)) = some [some "f1", none] := by
  refine ⟨rfl, rfl, ?_, rfl⟩
  simp [segments, startSegment, endSegment, freshCtx, List.countP_cons]

/-- C4: a matched Begin/End pair (`StartSegment` then `End` on the
returned handle) records exactly one new interval whose end is ≥ its
start, given that End runs no earlier than Begin on the monotone clock. -/
theorem begin_end_interval_ge (c : Ctx) (n : String) (t0 t1 : Nat) (h : t0 ≤ t1) :
    ∃ c2, endSegment (startSegment (some c) n t0) t1 = some c2 ∧
      c2.segs.getLast? = some ⟨n, t0, t1, c.openSegs.head?.map OpenSeg.name⟩ ∧
      ∀ s : Segment, c2.segs.getLast? = some s → s.start ≤ s.stop := by
  refine ⟨{ c with segs :=
      c.segs ++ [⟨n, t0, t1, c.openSegs.head?.map OpenSeg.name⟩] }, rfl, ?_, ?_⟩
  · show (c.segs ++ [(⟨n, t0, t1, c.openSegs.head?.map OpenSeg.name⟩ : Segment)]).getLast?
        = _
    rw [List.getLast?_concat]
  · intro s hs
    rw [show ({ c with segs :=
          c.segs ++ [⟨n, t0, t1, c.openSegs.head?.map OpenSeg.name⟩] } : Ctx).segs =
        c.segs ++ [⟨n, t0, t1, c.openSegs.head?.map OpenSeg.name⟩] from rfl,
        List.getLast?_concat] at hs
    cases hs
    exact h

/-- Witness for C4: the Begin/End pair on a fresh Context at times 0 and 1
records the interval (0, 1) with end ≥ start. -/
theorem begin_end_interval_ge_witness :
    ∃ c2, endSegment (startSegment (some (freshCtx 7)) "f1" 0) 1 = some c2 ∧
      c2.segs.getLast? = some ⟨"f1", 0, 1, none⟩ ∧
      ∀ s : Segment, c2.segs.getLast? = some s → s.start ≤ s.stop :=
  begin_end_interval_ge (freshCtx 7) "f1" 0 1 (by decide)

/-- C5: in the async handler the goroutine receives the very transaction
value of the originating request (same Context identity), and because the
handler joins it before writing the response, the goroutine's "async"
segment and the handler's "wg.Wait" segment land in the same request
record. -/
theorem async_goroutine_merged (c : Ctx) (app : AppState) (body : String)
    (clock : Nat) :
    async ⟨some c, app, body, clock⟩ =
      ⟨some { c with
          segs := (c.segs ++ [⟨"async", clock, clock + 100, some "wg.Wait"⟩]) ++
                  [⟨"wg.Wait", clock, clock + 100, c.openSegs.head?.map OpenSeg.name⟩] },
       app, body ++ "done!", clock + 100⟩ ∧
    (∃ c2, (async ⟨some c, app, body, clock⟩).txn = some c2 ∧
       c2.id = c.id ∧
       (∃ s ∈ c2.segs, s.name = "async") ∧
       (∃ s ∈ c2.segs, s.name = "wg.Wait")) := by
  refine ⟨rfl, { c with
      segs := (c.segs ++ [⟨"async", clock, clock + 100, some "wg.Wait"⟩]) ++
              [⟨"wg.Wait", clock, clock + 100, c.openSegs.head?.map OpenSeg.name⟩] },
    rfl, rfl, ?_, ?_⟩
  · exact ⟨⟨"async", clock, clock + 100, some "wg.Wait"⟩, by simp, rfl⟩
  · exact ⟨⟨"wg.Wait", clock, clock + 100, c.openSegs.head?.map OpenSeg.name⟩,
      by simp, rfl⟩

/-- C6: when the coin flip makes the ignore handler call `Ignore()` on the
request's Context, that Context is marked ignored, the reporting sink
excludes it, and no later mutation (renaming, attributes, errors,
segments) brings it back; the body says "ignoring the transaction".  When
`Ignore()` is not invoked the Context is unchanged and the body says "not
ignoring the transaction". -/
theorem ignore_excluded_from_sink (c : Ctx) (app : AppState) (body : String)
    (clock m : Nat) (n k : String) (v : AttrVal) (e : NoticedErr) :
    (∃ c2, (ignore ⟨some c, app, body, clock⟩ true).txn = some c2 ∧
       c2.ignored = true ∧ sinkAccepts c2 = false ∧
       (ignore ⟨some c, app, body, clock⟩ true).body =
         body ++ "ignoring the transaction" ∧
       (txnSetName (some c2) n).map sinkAccepts = some false ∧
       (txnAddAttribute (some c2) k v).map sinkAccepts = some false ∧
       (txnNoticeError (some c2) e).map sinkAccepts = some false ∧
       (startSegment (some c2) n m).map sinkAccepts = some false ∧
       (endSegment (some c2) m).map sinkAccepts = some false) ∧
    ignore ⟨some c, app, body, clock⟩ false =
      ⟨some c, app, body ++ "not ignoring the transaction", clock⟩ := by
  refine ⟨⟨{ c with ignored := true }, rfl, rfl, rfl, rfl, rfl, rfl, rfl, rfl, ?_⟩, rfl⟩
  cases h : c.openSegs <;>
    simp [endSegment, sinkAccepts, h]

/-- C7: if `newrelic.NewApplication` fails at startup, the process prints
the error and exits with status 1 before the router is built or the
server started; startup is the only path that terminates the process, and
a successful startup serves the full routing table on :8000. -/
theorem startup_failure_fatal (e : String) (u : Unit) :
    mainStartup (.error e) = .exited e 1 ∧
    mainStartup (.ok u) = .serving ":8000" mainRoutes ∧
    (∀ r : Except String Unit,
      (∃ e2, r = .error e2 ∧ mainStartup r = .exited e2 1) ∨
      (∃ u2, r = .ok u2 ∧ mainStartup r = .serving ":8000" mainRoutes)) := by
  refine ⟨rfl, rfl, ?_⟩
  intro r
  cases r with
  | error e2 => exact .inl ⟨e2, rfl, rfl⟩
  | ok u2 => exact .inr ⟨u2, rfl, rfl⟩

/-- C8: a failed outbound call in the external handler is reported inline:
the handler returns normally with the error text appended to the body,
consumes exactly one network outcome (no retry), and leaves the
application state, the clock and the Context's noticed errors untouched —
whether or not a Context is attached. -/
theorem outbound_error_inline_swallowed (c : Ctx) (app : AppState) (body : String)
    (clock : Nat) (e : String) (rest : List (Except String String)) :
    external ⟨some c, app, body, clock⟩ (.error e :: rest) =
      (⟨some { c with extSegs :=
           c.extSegs ++ [⟨"https://api.github.com/users/defunkt", clock, clock⟩] },
        app, body ++ e, clock⟩, rest) ∧
    external ⟨none, app, body, clock⟩ (.error e :: rest) =
      (⟨none, app, body ++ e, clock⟩, rest) :=
  ⟨rfl, rfl⟩

/-- C9: for every registered route, dispatching a request produces exactly
one attach step, and it precedes the handler step. -/
theorem attach_once_before_handler :
    mainRoutes.Forall (fun rh =>
      (dispatch mainMiddleware rh.2).count Event.attachTxn = 1 ∧
      dispatch mainMiddleware rh.2 =
        [Event.attachTxn, Event.handlerRun rh.2]) := by
  decide

/-- C10: the browser handler dereferences the transaction lookup without a
nil check yet never fails: with no Context attached it writes exactly
"browser header page"; with a Context it prepends the timing script only
when `WithTags` yields one, and always appends "browser header page". -/
theorem browser_nil_safe (c : Ctx) (app : AppState) (body : String) (clock : Nat) :
    browser ⟨none, app, body, clock⟩ =
      ⟨none, app, body ++ "browser header page", clock⟩ ∧
    browser ⟨some c, app, body, clock⟩ =
      ⟨some c, app,
       (match c.browserScript with
        | some js => body ++ js
        | none => body) ++ "browser header page", clock⟩ := by
  refine ⟨rfl, ?_⟩
  cases hb : c.browserScript <;>
    simp [browser, browserTimingHeaderWithTags, hb]
